import Mathlib

/-!
Shallow embedding of `notecli` (src/main.rs), a Markdown note-taking CLI
with a JSON index file (`notes/notes.json`), per-note Markdown files
(`notes/<title>.md`), and an interactive terminal viewer.

Modelling conventions:
- Rust panics (`expect`, `unwrap`, out-of-bounds indexing, debug-build
  integer underflow) are modelled as `Option.none` / explicit `panic`
  outcomes.
- The filesystem is modelled as the parsed content of the index file
  (`Option Json`) together with an association list from note-file path to
  content.  `serde_json` serialization is modelled at the JSON-value level.
- The external editor process is an oracle: the caller supplies the spawn
  result for a given invocation (program and argument), mirroring
  `Command::new(editor).arg(path).status()`.
- `chrono::DateTime<Utc>` is modelled as an opaque RFC3339 string; serde
  round-trips it unchanged.
-/

/-- One note record, mirroring `struct Note { title, content, date }`. -/
structure Note where
  title : String
  content : String
  date : String
deriving Repr, DecidableEq

/-- JSON values, the level at which `serde_json::to_string` / `from_str`
are modelled. -/
inductive Json where
  | null : Json
  | bool (b : Bool) : Json
  | num (n : Int) : Json
  | str (s : String) : Json
  | arr (elems : List Json) : Json
  | obj (fields : List (String × Json)) : Json
deriving Repr

/-- serde serialization of one `Note`: struct fields in declaration order. -/
def noteToJson (n : Note) : Json :=
  .obj [("title", .str n.title), ("content", .str n.content), ("date", .str n.date)]

/-- serde serialization of `Vec<Note>`: a JSON array. -/
def notesToJson (notes : List Note) : Json :=
  .arr (notes.map noteToJson)

/-- Extract a JSON string, failing on any other value (serde type error). -/
def jsonGetStr : Json → Option String
  | .str s => some s
  | _ => Option.none

/-- First binding of a key in a JSON object's field list. -/
def lookupField : List (String × Json) → String → Option Json
  | [], _ => Option.none
  | (k, v) :: rest, key => if k = key then some v else lookupField rest key

/-- serde deserialization of one `Note`: all three fields required, each a
JSON string. -/
def jsonToNote : Json → Option Note
  | .obj fields => do
      let t ← lookupField fields "title" >>= jsonGetStr
      let c ← lookupField fields "content" >>= jsonGetStr
      let d ← lookupField fields "date" >>= jsonGetStr
      pure { title := t, content := c, date := d }
  | _ => Option.none

/-- Deserialize each element of a JSON array in order; any element failure
fails the whole vector (serde `Vec` semantics). -/
def jsonToNotesAux : List Json → Option (List Note)
  | [] => some []
  | x :: xs =>
      match jsonToNote x, jsonToNotesAux xs with
      | some n, some ns => some (n :: ns)
      | _, _ => Option.none

/-- serde deserialization of `Vec<Note>`. -/
def jsonToNotes : Json → Option (List Note)
  | .arr xs => jsonToNotesAux xs
  | _ => Option.none

/-- Filesystem state visible to the program: the index file
`notes/notes.json` (`Option.none` = file absent) and the note files as a
path-to-content association list. -/
structure FS where
  indexFile : Option Json
  noteFiles : List (String × String)
deriving Repr

/-- `format!("notes/{}.md", title)`. -/
def notePath (title : String) : String :=
  "notes/" ++ title ++ ".md"

/-- `fs::read_to_string` on a note file: first entry for the path. -/
def readFile (fs : FS) (path : String) : Option String :=
  match fs.noteFiles.find? (fun p => p.1 == path) with
  | some p => some p.2
  | Option.none => Option.none

/-- `fs::remove_file`: errors (here `Option.none`, since the caller uses
`expect`) when the file is absent; otherwise the path no longer exists. -/
def removeFile (fs : FS) (path : String) : Option FS :=
  if (readFile fs path).isSome then
    some { fs with noteFiles := fs.noteFiles.filter (fun p => p.1 != path) }
  else
    Option.none

/-- `fs::write(NOTES_JSON_FILE, serde_json::to_string(&notes))`, as done in
`save_note` and `delete_note`. -/
def writeIndex (fs : FS) (notes : List Note) : FS :=
  { fs with indexFile := some (notesToJson notes) }

/-- `save_note`: read the index if present (a missing file yields an empty
vector; a present but malformed one panics via `expect`), push the new
note, and write the whole vector back. -/
def save_note (fs : FS) (note : Note) : Option FS :=
  match fs.indexFile with
  | Option.none => some (writeIndex fs [note])
  | some j =>
      match jsonToNotes j with
      | Option.none => Option.none
      | some notes => some (writeIndex fs (notes ++ [note]))

/-- Outcome of the `list` subcommand (`list_notes`). -/
inductive ListNotesOutcome where
  | readErr : ListNotesOutcome
  | parseErr : ListNotesOutcome
  | launch (notes : List Note) : ListNotesOutcome
deriving Repr

/-- `list_notes`: on a read error print a diagnostic and stop; on a parse
error print a diagnostic and stop; otherwise launch `display_tui`. -/
def list_notes (fs : FS) : ListNotesOutcome :=
  match fs.indexFile with
  | Option.none => .readErr
  | some j =>
      match jsonToNotes j with
      | Option.none => .parseErr
      | some notes => .launch notes

/-- `delete_note(notes, index)`: when `index < notes.len()`, remove the
note's Markdown file (`expect` panics if removal fails), remove the note
from the vector, and rewrite the index file; otherwise do nothing.
Returns the new vector and filesystem, or `Option.none` for a panic. -/
def delete_note (notes : List Note) (fs : FS) (index : Nat) :
    Option (List Note × FS) :=
  if h : index < notes.length then
    let note := notes.get ⟨index, h⟩
    match removeFile fs (notePath note.title) with
    | Option.none => Option.none
    | some fs1 =>
        let notes2 := notes.eraseIdx index
        some (notes2, writeIndex fs1 notes2)
  else
    some (notes, fs)

/-- An editor invocation, `Command::new(program).arg(arg)`. -/
structure EditorInvocation where
  program : String
  arg : String
deriving Repr, DecidableEq

/-- Result of `.status()` on the spawned editor: `spawnError` is the `Err`
case (the child could not be started), `status c` is `Ok` with exit code
`c` — note the source never inspects `c`. -/
inductive SpawnResult where
  | spawnError : SpawnResult
  | status (code : Int) : SpawnResult
deriving Repr, DecidableEq

/-- `std::env::var("EDITOR").unwrap_or("vim".to_string())` — the editor
resolution in `create_new_note`. -/
def createNoteEditorProgram (editorEnv : Option String) : String :=
  editorEnv.getD "vim"

/-- `std::env::var("EDITOR").unwrap_or("nano".to_string())` — the editor
resolution in the viewer's Open branch. -/
def openNoteEditorProgram (editorEnv : Option String) : String :=
  editorEnv.getD "nano"

/-- `create_new_note(title)`: resolve the editor, spawn it on the note
path (`.status().expect(..)` panics only on spawn failure — the exit code
is discarded), re-read the file the editor left behind (`expect` panics if
it is unreadable), and append the note via `save_note`.  `fsAfterEditor`
is the filesystem after the editor child exited; `now` is `Utc::now()`.
`Option.none` models a panic. -/
def create_new_note (title : String) (editorEnv : Option String)
    (spawn : EditorInvocation → SpawnResult) (fsAfterEditor : FS)
    (now : String) : Option FS :=
  let file_path := notePath title
  match spawn { program := createNoteEditorProgram editorEnv, arg := file_path } with
  | .spawnError => Option.none
  | .status _ =>
      match readFile fsAfterEditor file_path with
      | Option.none => Option.none
      | some content =>
          save_note fsAfterEditor { title := title, content := content, date := now }

/-- The input events of `handle_user_input` (`UserAction` in the source;
`Open` and `None` are renamed because they are reserved in Lean). -/
inductive UserAction where
  | moveUp : UserAction
  | moveDown : UserAction
  | quit : UserAction
  | openNote : UserAction
  | delete : UserAction
  | toggleKeybinds : UserAction
  | noneAction : UserAction
deriving Repr, DecidableEq

/-- The viewer's mutable state inside `display_tui`: the working note
vector, `selected_index`, `show_keybinds`, the filesystem it mutates, and
whether terminal raw mode is currently enabled. -/
structure ViewerState where
  notes : List Note
  selected_index : Nat
  show_keybinds : Bool
  fs : FS
  rawMode : Bool
deriving Repr

/-- `usize` subtraction as in `notes.len() - 1`: a debug build panics on
underflow (a release build would instead wrap to `2^64 - 1`, making the
guard `selected_index < notes.len() - 1` true on an empty vector). -/
def usizeSub (a b : Nat) : Option Nat :=
  if b ≤ a then some (a - b) else Option.none

/-- `note.date.format("%Y-%m-%d")` on an RFC3339 date string: its first
ten characters. -/
def dateYmd (d : String) : String :=
  d.take 10

/-- `format!("{} - {}", note.title, note.date.format("%Y-%m-%d"))`. -/
def titleWithDate (n : Note) : String :=
  n.title ++ " - " ++ dateYmd n.date

/-- What one pass of the `terminal.draw` closure puts on screen: each list
entry with its selected-style flag, the content pane, and whether the
keybind pane is drawn. -/
structure RenderOutput where
  listItems : List (String × Bool)
  content : String
  keybinds : Bool
deriving Repr, DecidableEq

/-- The draw closure: builds the title list, then evaluates
`&notes[selected_index].content` — which indexes out of bounds (a panic,
modelled as `Option.none`) whenever `selected_index ≥ notes.len()`, in
particular on an empty note vector. -/
def render (s : ViewerState) : Option RenderOutput :=
  let titles := s.notes.enum.map
    (fun p => (titleWithDate p.2, p.1 == s.selected_index))
  match s.notes.get? s.selected_index with
  | Option.none => Option.none
  | some sel =>
      some { listItems := titles, content := sel.content, keybinds := s.show_keybinds }

/-- Per-event environment for a loop iteration: the `EDITOR` variable and
the spawn oracle for any editor invocation made during the event. -/
structure StepEnv where
  editorEnv : Option String
  spawn : EditorInvocation → SpawnResult

/-- Outcome of handling one input event in the `loop` of `display_tui`. -/
inductive StepOutcome where
  | panicStop (s : ViewerState) : StepOutcome
  | quitLoop (s : ViewerState) : StepOutcome
  | next (s : ViewerState) : StepOutcome
deriving Repr

/-- The `match handle_user_input()` body of `display_tui`, one transition
of the viewer state machine. -/
def displayTuiStep (env : StepEnv) (a : UserAction) (s : ViewerState) : StepOutcome :=
  match a with
  | .moveUp =>
      if s.selected_index > 0 then
        .next { s with selected_index := s.selected_index - 1 }
      else
        .next s
  | .moveDown =>
      match usizeSub s.notes.length 1 with
      | Option.none => .panicStop s
      | some m =>
          if s.selected_index < m then
            .next { s with selected_index := s.selected_index + 1 }
          else
            .next s
  | .quit => .quitLoop s
  | .openNote =>
      match s.notes.get? s.selected_index with
      | Option.none => .panicStop s
      | some note =>
          match env.spawn { program := openNoteEditorProgram env.editorEnv,
                            arg := notePath note.title } with
          | .spawnError => .panicStop s
          | .status _ => .next s
  | .delete =>
      match delete_note s.notes s.fs s.selected_index with
      | Option.none => .panicStop s
      | some (notes2, fs2) =>
          let si :=
            if s.selected_index ≥ notes2.length ∧ s.selected_index > 0 then
              s.selected_index - 1
            else
              s.selected_index
          .next { s with notes := notes2, fs := fs2, selected_index := si }
  | .toggleKeybinds => .next { s with show_keybinds := !s.show_keybinds }
  | .noneAction => .next s

/-- How a `display_tui` run ends: a panic (unwinding with raw mode in
whatever state it was), a normal quit (`break` then
`disable_raw_mode`), or the script running out while the loop blocks for
the next input event. -/
inductive ViewerExit where
  | panicked (s : ViewerState) : ViewerExit
  | quitNormal (s : ViewerState) : ViewerExit
  | pending (s : ViewerState) : ViewerExit
deriving Repr

/-- The viewer loop: each iteration draws first
(`terminal.draw(..).unwrap()` — the draw closure's panic aborts, even
when no further input is scripted), then handles the next scripted input
event.  After a `break`, `disable_raw_mode` runs. -/
def displayTuiLoop : List (StepEnv × UserAction) → ViewerState → ViewerExit
  | [], s =>
      match render s with
      | Option.none => .panicked s
      | some _ => .pending s
  | (env, a) :: rest, s =>
      match render s with
      | Option.none => .panicked s
      | some _ =>
          match displayTuiStep env a s with
          | .panicStop s1 => .panicked s1
          | .quitLoop s1 => .quitNormal { s1 with rawMode := false }
          | .next s1 => displayTuiLoop rest s1

/-- `display_tui(notes)`: enable raw mode, start with `show_keybinds =
true` and `selected_index = 0`, then run the loop on the scripted
events. -/
def display_tui (script : List (StepEnv × UserAction)) (notes : List Note)
    (fs : FS) : ViewerExit :=
  displayTuiLoop script
    { notes := notes, selected_index := 0, show_keybinds := true,
      fs := fs, rawMode := true }

/-! ## Helper lemmas and concrete fixtures -/

/-- Deserializing the serialization of one note recovers it. -/
lemma jsonToNote_noteToJson (n : Note) : jsonToNote (noteToJson n) = some n := rfl

/-- Element-wise round trip for a serialized vector of notes. -/
lemma jsonToNotesAux_roundtrip (ns : List Note) :
    jsonToNotesAux (ns.map noteToJson) = some ns := by
  induction ns with
  | nil => rfl
  | cons n rest ih => simp [jsonToNotesAux, jsonToNote_noteToJson, ih]

/-- serde round trip at the vector level. -/
lemma jsonToNotes_notesToJson (ns : List Note) :
    jsonToNotes (notesToJson ns) = some ns := by
  simp [jsonToNotes, notesToJson, jsonToNotesAux_roundtrip]

/-- After filtering out a path, no entry for that path can be found. -/
lemma find?_filter_bne (l : List (String × String)) (path : String) :
    (l.filter (fun p => p.1 != path)).find? (fun p => p.1 == path) = Option.none := by
  rw [List.find?_eq_none]
  intro x hx
  simp only [List.mem_filter, bne_iff_ne, ne_eq] at hx
  simp [hx.2]

/-- The viewer state carried by a step outcome. -/
def StepOutcome.state : StepOutcome → ViewerState
  | .panicStop s => s
  | .quitLoop s => s
  | .next s => s

/-- No transition of the viewer loop body touches terminal raw mode. -/
lemma displayTuiStep_rawMode (env : StepEnv) (a : UserAction) (s : ViewerState) :
    ((displayTuiStep env a s).state).rawMode = s.rawMode := by
  cases a <;>
    simp only [displayTuiStep] <;>
    (repeat' split) <;>
    simp [StepOutcome.state]

/-- Raw-mode bookkeeping of a whole loop run: a panic exit keeps the
raw-mode flag the loop started with, a normal quit leaves it disabled, a
blocked loop keeps it. -/
lemma displayTuiLoop_rawMode (script : List (StepEnv × UserAction)) :
    ∀ s : ViewerState,
      (∀ s1, displayTuiLoop script s = .panicked s1 → s1.rawMode = s.rawMode) ∧
      (∀ s1, displayTuiLoop script s = .quitNormal s1 → s1.rawMode = false) ∧
      (∀ s1, displayTuiLoop script s = .pending s1 → s1.rawMode = s.rawMode) := by
  induction script with
  | nil =>
      intro s
      refine ⟨?_, ?_, ?_⟩ <;> intro s1 h1 <;>
        simp only [displayTuiLoop] at h1 <;> split at h1 <;>
        cases h1 <;> rfl
  | cons p rest ih =>
      intro s
      obtain ⟨env, a⟩ := p
      refine ⟨?_, ?_, ?_⟩ <;> intro s1 h1 <;>
        simp only [displayTuiLoop] at h1 <;> split at h1
      case _ => cases h1; rfl
      case _ hstep =>
          split at h1
          case _ hs =>
              cases h1
              have := displayTuiStep_rawMode env a s
              rw [hs] at this
              exact this
          case _ hs => cases h1
          case _ hs =>
              have := displayTuiStep_rawMode env a s
              rw [hs] at this
              rw [← this]
              exact ((ih _).1) s1 h1
      case _ => cases h1
      case _ hstep =>
          split at h1
          case _ hs => cases h1
          case _ hs => cases h1; rfl
          case _ hs =>
              exact ((ih _).2.1) s1 h1
      case _ => cases h1
      case _ hstep =>
          split at h1
          case _ hs => cases h1
          case _ hs => cases h1
          case _ hs =>
              have := displayTuiStep_rawMode env a s
              rw [hs] at this
              rw [← this]
              exact ((ih _).2.2) s1 h1

/-- Fixture note "a". -/
def wNote1 : Note := { title := "a", content := "ca", date := "2024-01-01T00:00:00Z" }

/-- Fixture note "b". -/
def wNote2 : Note := { title := "b", content := "cb", date := "2024-01-02T00:00:00Z" }

/-- Fixture note "c". -/
def wNote3 : Note := { title := "c", content := "cc", date := "2024-01-03T00:00:00Z" }

/-- Fixture filesystem holding three notes and their files. -/
def wFs3 : FS :=
  { indexFile := some (notesToJson [wNote1, wNote2, wNote3]),
    noteFiles := [(notePath "a", "ca"), (notePath "b", "cb"), (notePath "c", "cc")] }

/-- Fixture viewer state: three notes, last one selected. -/
def wS3 : ViewerState :=
  { notes := [wNote1, wNote2, wNote3], selected_index := 2,
    show_keybinds := true, fs := wFs3, rawMode := true }

/-- Fixture filesystem with no index file and no note files. -/
def wFsEmpty : FS := { indexFile := Option.none, noteFiles := [] }

/-- Fixture filesystem with no index file and one note file `notes/t.md`. -/
def wFsT : FS := { indexFile := Option.none, noteFiles := [(notePath "t", "hello")] }

/-- Fixture event environment: `EDITOR` unset, every spawn exits 0. -/
def envDefault : StepEnv := { editorEnv := Option.none, spawn := fun _ => .status 0 }

/-- Fixture event environment: `EDITOR` unset, every spawn fails. -/
def envSpawnFail : StepEnv := { editorEnv := Option.none, spawn := fun _ => .spawnError }

/-! ## Claims -/

/-- C1: contrary to the claim, a viewer session started with an empty note
sequence does not render empty panes and quit cleanly — the very first
draw evaluates `notes[selected_index]` on the empty vector and panics
(here: `render` returns `Option.none` and the run ends `panicked`, before
any input, whatever the input script), with raw mode still enabled. -/
theorem display_tui_empty_notes_first_render_panics
    (script : List (StepEnv × UserAction)) (fs : FS) :
    display_tui script [] fs =
      ViewerExit.panicked
        { notes := [], selected_index := 0, show_keybinds := true,
          fs := fs, rawMode := true } ∧
    render { notes := [], selected_index := 0, show_keybinds := true,
             fs := fs, rawMode := true } = Option.none := by
  refine ⟨?_, rfl⟩
  cases script with
  | nil => rfl
  | cons p rest => rfl

/-- C2: contrary to the claim, a MoveDown transition on an empty note
sequence is not a safe no-op: the guard computes `notes.len() - 1`, which
underflows on length 0 — a debug build panics (modelled here by
`usizeSub` returning `Option.none`), and a release build would wrap and
move `selected_index` to 1, violating `selected_index < max(N,1)`. -/
theorem moveDown_on_empty_notes_panics (env : StepEnv) (kb rm : Bool) (fs : FS) :
    displayTuiStep env .moveDown
      { notes := [], selected_index := 0, show_keybinds := kb, fs := fs, rawMode := rm } =
      .panicStop { notes := [], selected_index := 0, show_keybinds := kb,
                   fs := fs, rawMode := rm } ∧
    usizeSub ([] : List Note).length 1 = Option.none :=
  ⟨rfl, rfl⟩

/-- C3: with a note selected (index in range) whose Markdown file exists,
the Delete transition removes exactly that note from the in-memory
vector, rewrites the index file to the serialization of the remaining
vector (which deserializes back to it), deletes the note's Markdown file,
and decrements `selected_index` exactly when the deleted note was the
last index of a vector of length greater than one. -/
theorem delete_transition_correct (env : StepEnv) (s : ViewerState) (note : Note)
    (hn : s.notes.get? s.selected_index = some note)
    (hfile : (readFile s.fs (notePath note.title)).isSome = true) :
    ∃ s1, displayTuiStep env .delete s = .next s1 ∧
      s1.notes = s.notes.eraseIdx s.selected_index ∧
      s1.fs.indexFile = some (notesToJson (s.notes.eraseIdx s.selected_index)) ∧
      jsonToNotes (notesToJson (s.notes.eraseIdx s.selected_index)) =
        some (s.notes.eraseIdx s.selected_index) ∧
      readFile s1.fs (notePath note.title) = Option.none ∧
      s1.selected_index =
        (if s.selected_index = s.notes.length - 1 ∧ 1 < s.notes.length
         then s.selected_index - 1 else s.selected_index) ∧
      s1.show_keybinds = s.show_keybinds ∧
      s1.rawMode = s.rawMode := by
  have h : s.selected_index < s.notes.length := by
    rcases List.get?_eq_some.mp hn with ⟨h1, _⟩; exact h1
  have hget : s.notes.get ⟨s.selected_index, h⟩ = note := by
    rcases List.get?_eq_some.mp hn with ⟨h1, e⟩; exact e
  have hlen : (s.notes.eraseIdx s.selected_index).length = s.notes.length - 1 := by
    rw [List.length_eraseIdx]; simp [h]
  have hdel : delete_note s.notes s.fs s.selected_index =
      some (s.notes.eraseIdx s.selected_index,
        writeIndex
          { s.fs with
            noteFiles := s.fs.noteFiles.filter (fun p => p.1 != notePath note.title) }
          (s.notes.eraseIdx s.selected_index)) := by
    unfold delete_note
    rw [dif_pos h]
    simp only [hget]
    simp [removeFile, hfile]
  refine ⟨{ s with
      notes := s.notes.eraseIdx s.selected_index,
      fs := writeIndex
        { s.fs with
          noteFiles := s.fs.noteFiles.filter (fun p => p.1 != notePath note.title) }
        (s.notes.eraseIdx s.selected_index),
      selected_index :=
        if s.selected_index ≥ (s.notes.eraseIdx s.selected_index).length ∧
            s.selected_index > 0
        then s.selected_index - 1 else s.selected_index },
    ?_, rfl, rfl, jsonToNotes_notesToJson _, ?_, ?_, rfl, rfl⟩
  · simp only [displayTuiStep, hdel]
  · simp only [writeIndex, readFile]
    rw [find?_filter_bne]
  · simp only [hlen]
    by_cases hc : s.selected_index = s.notes.length - 1 ∧ 1 < s.notes.length
    · rw [if_pos (by omega), if_pos hc]
    · rw [if_neg (by omega), if_neg hc]

/-- C3 witness: three notes with the last selected — Delete leaves the
first two notes, index file matching, the file `notes/c.md` gone, and
`selected_index = 1`. -/
theorem delete_transition_correct_witness :
    ∃ s1, displayTuiStep envDefault .delete wS3 = .next s1 ∧
      s1.notes = [wNote1, wNote2] ∧
      s1.fs.indexFile = some (notesToJson [wNote1, wNote2]) ∧
      jsonToNotes (notesToJson [wNote1, wNote2]) = some [wNote1, wNote2] ∧
      readFile s1.fs (notePath "c") = Option.none ∧
      s1.selected_index = 1 ∧
      s1.show_keybinds = true ∧
      s1.rawMode = true :=
  delete_transition_correct envDefault wS3 wNote3 rfl rfl

/-- C4 counterexample: with the index file absent, the viewer launch path
(`list_notes`) does not treat the store as the empty sequence — it reports
a read error and never launches the viewer. -/
theorem list_notes_missing_index_errors_cex :
    list_notes wFsEmpty = ListNotesOutcome.readErr ∧
    list_notes wFsEmpty ≠ ListNotesOutcome.launch [] :=
  ⟨rfl, fun hcontra => ListNotesOutcome.noConfusion hcontra⟩

/-- C4 amended: only the append path treats a missing `notes/notes.json`
as the empty sequence — `save_note` starts from the empty vector and
writes the one-element index — while the viewer launch path (`list_notes`)
reports a read error and does not start the viewer. -/
theorem missing_index_amended :
    (∀ fs note, fs.indexFile = Option.none →
      save_note fs note = some (writeIndex fs [note])) ∧
    (∀ fs, fs.indexFile = Option.none → list_notes fs = ListNotesOutcome.readErr) := by
  constructor
  · intro fs note hmiss
    simp [save_note, hmiss]
  · intro fs hmiss
    simp [list_notes, hmiss]

/-- C4 amended, at a concrete missing-index filesystem. -/
theorem missing_index_amended_witness :
    save_note wFsEmpty wNote1 = some (writeIndex wFsEmpty [wNote1]) ∧
    list_notes wFsEmpty = ListNotesOutcome.readErr :=
  ⟨missing_index_amended.1 wFsEmpty wNote1 rfl, missing_index_amended.2 wFsEmpty rfl⟩

/-- C5: the serde round trip — writing the index for any note sequence
and then taking the viewer launch path yields exactly that sequence,
field-for-field and in order. -/
theorem save_load_roundtrip (fs : FS) (notes : List Note) :
    jsonToNotes (notesToJson notes) = some notes ∧
    list_notes (writeIndex fs notes) = ListNotesOutcome.launch notes := by
  refine ⟨jsonToNotes_notesToJson notes, ?_⟩
  simp [list_notes, writeIndex, jsonToNotes_notesToJson]

/-- C6 counterexample: with the editor exiting with status 1 (non-zero),
`create_new_note` does not abort — it reads the note file and appends the
note exactly as on a zero exit, because `.status().expect(..)` only
checks the spawn `Result` and discards the `ExitStatus`. -/
theorem create_note_nonzero_exit_continues_cex :
    create_new_note "t" Option.none (fun _ => SpawnResult.status 1) wFsT "d" =
      some (writeIndex wFsT [{ title := "t", content := "hello", date := "d" }]) ∧
    (create_new_note "t" Option.none (fun _ => SpawnResult.status 1) wFsT "d").isSome = true :=
  ⟨rfl, rfl⟩

/-- C6 amended: for both editor invocations (note creation and in-viewer
Open), a spawn failure panics and aborts the operation, but the child's
exit status is never inspected: a non-zero exit continues exactly like a
zero exit. -/
theorem editor_error_handling_amended (title : String) (editorEnv : Option String)
    (c : Int) (fs : FS) (now : String) (env : StepEnv) (s : ViewerState) (note : Note)
    (hn : s.notes.get? s.selected_index = some note) :
    create_new_note title editorEnv (fun _ => SpawnResult.spawnError) fs now = Option.none ∧
    create_new_note title editorEnv (fun _ => SpawnResult.status c) fs now =
      create_new_note title editorEnv (fun _ => SpawnResult.status 0) fs now ∧
    (env.spawn { program := openNoteEditorProgram env.editorEnv,
                 arg := notePath note.title } = SpawnResult.spawnError →
      displayTuiStep env .openNote s = .panicStop s) ∧
    (∀ c2, env.spawn { program := openNoteEditorProgram env.editorEnv,
                       arg := notePath note.title } = SpawnResult.status c2 →
      displayTuiStep env .openNote s = .next s) := by
  have hn2 : s.notes[s.selected_index]? = some note := by
    rw [← List.get?_eq_getElem?]; exact hn
  refine ⟨rfl, rfl, ?_, ?_⟩
  · intro hsp
    simp [displayTuiStep, hn2, hsp]
  · intro c2 hsp
    simp [displayTuiStep, hn2, hsp]

/-- C6 amended, at concrete inputs: spawn failure aborts creation and
panics the Open transition; exit status 1 behaves like exit status 0. -/
theorem editor_error_handling_amended_witness :
    create_new_note "t" Option.none (fun _ => SpawnResult.spawnError) wFsT "d" =
      Option.none ∧
    create_new_note "t" Option.none (fun _ => SpawnResult.status 1) wFsT "d" =
      create_new_note "t" Option.none (fun _ => SpawnResult.status 0) wFsT "d" ∧
    displayTuiStep envSpawnFail .openNote wS3 = .panicStop wS3 ∧
    displayTuiStep envDefault .openNote wS3 = .next wS3 := by
  refine ⟨?_, ?_, ?_, ?_⟩
  · exact (editor_error_handling_amended "t" Option.none 1 wFsT "d" envSpawnFail wS3
      wNote3 rfl).1
  · exact (editor_error_handling_amended "t" Option.none 1 wFsT "d" envSpawnFail wS3
      wNote3 rfl).2.1
  · exact (editor_error_handling_amended "t" Option.none 1 wFsT "d" envSpawnFail wS3
      wNote3 rfl).2.2.1 rfl
  · exact (editor_error_handling_amended "t" Option.none 1 wFsT "d" envDefault wS3
      wNote3 rfl).2.2.2 0 rfl

/-- C7 counterexample: a viewer run that exits by panic (here: launched on
an empty note vector, so the first draw indexes out of bounds) terminates
with terminal raw mode still enabled — `disable_raw_mode` runs only after
a normal `break`, and there is no scope guard for the panic unwind. -/
theorem raw_mode_panic_exit_cex :
    display_tui [] [] wFsEmpty =
      ViewerExit.panicked
        { notes := [], selected_index := 0, show_keybinds := true,
          fs := wFsEmpty, rawMode := true } := rfl

/-- C7 amended: raw mode is disabled on the normal quit exit path of
`display_tui`, but every panic exit from inside the loop leaves raw mode
enabled. -/
theorem raw_mode_exit_paths_amended (script : List (StepEnv × UserAction))
    (notes : List Note) (fs : FS) :
    (∀ s1, display_tui script notes fs = ViewerExit.quitNormal s1 →
      s1.rawMode = false) ∧
    (∀ s1, display_tui script notes fs = ViewerExit.panicked s1 →
      s1.rawMode = true) := by
  have h := displayTuiLoop_rawMode script
    { notes := notes, selected_index := 0, show_keybinds := true,
      fs := fs, rawMode := true }
  exact ⟨h.2.1, fun s1 hs => h.1 s1 hs⟩

/-- C7 amended, at concrete runs: a quit script ends with raw mode
disabled; the empty-notes panic ends with raw mode enabled. -/
theorem raw_mode_exit_paths_amended_witness :
    ({ notes := [wNote1, wNote2, wNote3], selected_index := 0, show_keybinds := true,
       fs := wFs3, rawMode := false } : ViewerState).rawMode = false ∧
    ({ notes := [], selected_index := 0, show_keybinds := true,
       fs := wFsEmpty, rawMode := true } : ViewerState).rawMode = true := by
  constructor
  · exact (raw_mode_exit_paths_amended [(envDefault, UserAction.quit)]
      [wNote1, wNote2, wNote3] wFs3).1 _ rfl
  · exact (raw_mode_exit_paths_amended [] [] wFsEmpty).2 _ rfl

/-- C8 counterexample: with `EDITOR` unset, the two operations that
invoke the editor do not resolve the same built-in default — note
creation falls back to vim, the in-viewer Open falls back to nano. -/
theorem default_editor_programs_differ_cex :
    createNoteEditorProgram Option.none = "vim" ∧
    openNoteEditorProgram Option.none = "nano" ∧
    createNoteEditorProgram Option.none ≠ openNoteEditorProgram Option.none := by
  refine ⟨rfl, rfl, ?_⟩
  decide

/-- C8 amended: each editor-invoking operation resolves `EDITOR` when it
is set; when unset, each falls back to its own fixed default — vim for
note creation, nano for the in-viewer Open. -/
theorem editor_resolution_amended (e : String) :
    createNoteEditorProgram (some e) = e ∧
    openNoteEditorProgram (some e) = e ∧
    createNoteEditorProgram Option.none = "vim" ∧
    openNoteEditorProgram Option.none = "nano" :=
  ⟨rfl, rfl, rfl, rfl⟩

/-- C9: the ToggleKeybinds transition flips `show_keybinds` and changes
nothing else — notes, selection and filesystem (index file and note
files) are untouched — and applying it twice restores the original
state. -/
theorem toggle_keybinds_frame (env : StepEnv) (s : ViewerState) :
    displayTuiStep env .toggleKeybinds s =
      .next { s with show_keybinds := !s.show_keybinds } ∧
    ({ s with show_keybinds := !s.show_keybinds } : ViewerState).notes = s.notes ∧
    ({ s with show_keybinds := !s.show_keybinds } : ViewerState).selected_index =
      s.selected_index ∧
    ({ s with show_keybinds := !s.show_keybinds } : ViewerState).fs = s.fs ∧
    displayTuiStep env .toggleKeybinds { s with show_keybinds := !s.show_keybinds } =
      .next s := by
  refine ⟨rfl, rfl, rfl, rfl, ?_⟩
  simp [displayTuiStep, Bool.not_not]

/-- C10: `delete_note` called with an index at or beyond the vector
length is a silent no-op: no panic, and both the note vector and the
filesystem (index file and note files) are returned unchanged. -/
theorem delete_note_out_of_range_noop (notes : List Note) (fs : FS) (index : Nat)
    (h : notes.length ≤ index) :
    delete_note notes fs index = some (notes, fs) := by
  unfold delete_note
  rw [dif_neg (by omega)]

/-- C10 at a concrete out-of-range call. -/
theorem delete_note_out_of_range_noop_witness :
    delete_note [] wFsEmpty 5 = some ([], wFsEmpty) :=
  delete_note_out_of_range_noop [] wFsEmpty 5 (by decide)
